import Mathlib

/-!
Shallow embedding of the babel-plugin-react-intl fork (src/index.js): message
descriptor extraction, ICU message validation, the per-unit extraction store,
the two visitor callbacks, and the catalog emitter, together with theorems
settling the frozen claims about them.
-/

deriving instance DecidableEq for Except

namespace ReactIntlExtract

/-- Error kinds raised by the extraction pipeline, mirroring the distinct
`buildCodeFrameError` sites in src/index.js (plus `hostCrash` for a JS
`TypeError` on a missing first call argument). -/
inductive Err where
  | staticEvalFailure
  | escapeHint
  | parseFailure
  | missingRequiredFields
  | duplicateIdConflict
  | missingDescription
  | hostCrash
deriving DecidableEq, Repr

/-- Source expressions, as the plugin distinguishes them: a string literal
(`path.isLiteral()` true), a non-literal expression that the host evaluator
collapses to a string, a JSX expression container, or a dynamic expression the
evaluator cannot resolve. -/
inductive Expr where
  | strLit (s : String)
  | evaluable (s : String)
  | container (e : Expr)
  | dynamic
deriving DecidableEq, Repr

/-- Attribute/property keys: a plain (JSX)identifier, or a computed key
expression to be statically evaluated. -/
inductive KeyExpr where
  | ident (name : String)
  | computed (e : Expr)
deriving DecidableEq, Repr

/-- JS truthiness of an optional string (`undefined` and `""` are falsy). -/
def truthy : Option String → Bool
  | some s => s != ""
  | none => false

/-- Host static evaluator `path.evaluate()` (external capability): literals and
evaluable expressions resolve, containers and dynamic expressions do not. -/
def pathEvaluate : Expr → Option String
  | .strLit s => some s
  | .evaluable s => some s
  | .container _ => none
  | .dynamic => none

/-- `path.isLiteral()` for our expression model. -/
def Expr.isLiteral : Expr → Bool
  | .strLit _ => true
  | _ => false

/-- `evaluatePath` from src/index.js: evaluate or raise the
statically-evaluate-able error. -/
def evaluatePath (e : Expr) : Except Err String :=
  match pathEvaluate e with
  | some v => .ok v
  | none => .error .staticEvalFailure

/-- One-level unwrap of a JSX expression container, as in
`getMessageDescriptorValue`. -/
def unwrapContainer : Expr → Expr
  | .container e => e
  | e => e

/-- Drop surrounding whitespace from a character list. -/
def trimChars (cs : List Char) : List Char :=
  ((cs.dropWhile Char.isWhitespace).reverse.dropWhile Char.isWhitespace).reverse

/-- JS `String.prototype.trim`: strip leading and trailing whitespace. -/
def jsTrim (s : String) : String :=
  String.mk (trimChars s.data)

/-- `getMessageDescriptorValue` from src/index.js: unwrap one container level,
evaluate, and trim. -/
def getMessageDescriptorValue (e : Expr) : Except Err String :=
  (evaluatePath (unwrapContainer e)).map jsTrim

def obr : Char := '\x7b'
def cbr : Char := '\x7d'

/-- Scanner for the modelled ICU message grammar: literal characters
interleaved with brace-delimited placeholders.  The second argument is `none`
in literal text and `some acc` (reversed inner characters) inside a
placeholder.  A stray closing brace, an unterminated placeholder, or a nested
opening brace fails; a placeholder is re-serialized with its inner text
trimmed, which is the canonicalization step. -/
def icuScan : List Char → Option (List Char) → Option (List Char)
  | [], none => some []
  | [], some _ => none
  | ch :: rest, none =>
    if ch = obr then icuScan rest (some [])
    else if ch = cbr then none
    else (icuScan rest none).map (fun out => ch :: out)
  | ch :: rest, some acc =>
    if ch = cbr then
      (icuScan rest none).map
        (fun out => obr :: (trimChars acc.reverse ++ cbr :: out))
    else if ch = obr then none
    else icuScan rest (some (ch :: acc))

/-- Modelled from the spec: `printICUMessage` (./print-icu-message, not under
src/) "parses a string as an embedded message-format grammar (literal text
interleaved with placeholder tokens and plural/select sub-rules) and produces
a canonical re-serialization, or fails".  We model the placeholder fragment of
that grammar: parsing fails on unbalanced braces, and the canonical
re-serialization normalizes (trims) the whitespace inside a placeholder. -/
def printICUMessage (s : String) : Option String :=
  (icuScan s.data none).map String.mk

/-- Does the character list contain two consecutive backslashes
(JS `message.indexOf('\\\\') >= 0`)? -/
def hasDoubleBackslash : List Char → Bool
  | c1 :: c2 :: rest => (c1 == '\\' && c2 == '\\') || hasDoubleBackslash (c2 :: rest)
  | _ => false

/-- `getICUMessageValue` from src/index.js: resolve the message value, then
validate/canonicalize it; on parse failure raise the specialized escaping
diagnostic for raw JSX string literals containing a double backslash, else the
generic parse error. -/
def getICUMessageValue (messagePath : Expr) (isJSXSource : Bool) : Except Err String :=
  match getMessageDescriptorValue messagePath with
  | .error e => .error e
  | .ok message =>
    match printICUMessage message with
    | some canonical => .ok canonical
    | none =>
      if isJSXSource && messagePath.isLiteral && hasDoubleBackslash message.data then
        .error .escapeHint
      else
        .error .parseFailure

def COMPONENT_NAMES : List String := []

def FUNCTION_NAMES : List String := ["defineMessages"]

def DESCRIPTOR_PROPS : List String := ["id", "description", "defaultMessage"]

def COMPONENT_NAME : String := "T"
def MESSAGE_PROPERTY : String := "s"
def COMMENT_PROPERTY : String := "c"

/-- A raw descriptor: recognized property names mapped to unresolved source
expressions (the `hash` accumulated by `createMessageDescriptor`). -/
structure RawDescriptor where
  id : Option Expr := none
  description : Option Expr := none
  defaultMessage : Option Expr := none
  c : Option Expr := none
deriving DecidableEq, Repr

/-- `getMessageDescriptorKey` from src/index.js: plain identifiers are taken
as literal names, other key expressions are statically evaluated. -/
def getMessageDescriptorKey : KeyExpr → Except Err String
  | .ident n => .ok n
  | .computed e => evaluatePath e

/-- The per-property key-mapping step of `createMessageDescriptor`: for a `T`
component the message property feeds both `id` and `defaultMessage` and the
comment property feeds `c`; otherwise only the three descriptor props are
retained. -/
def applyDescriptorProp (isTComp : Bool) (hash : RawDescriptor) (key : String)
    (valuePath : Expr) : RawDescriptor :=
  if isTComp then
    if key = MESSAGE_PROPERTY then
      { hash with id := some valuePath, defaultMessage := some valuePath }
    else if key = COMMENT_PROPERTY then
      { hash with c := some valuePath }
    else hash
  else
    if key = "id" then { hash with id := some valuePath }
    else if key = "description" then { hash with description := some valuePath }
    else if key = "defaultMessage" then { hash with defaultMessage := some valuePath }
    else hash

/-- The fold inside `createMessageDescriptor` (its `reduce`). -/
def createMessageDescriptorAux (isTComp : Bool) :
    List (KeyExpr × Expr) → RawDescriptor → Except Err RawDescriptor
  | [], hash => .ok hash
  | (keyPath, valuePath) :: rest, hash =>
    match getMessageDescriptorKey keyPath with
    | .error e => .error e
    | .ok key => createMessageDescriptorAux isTComp rest (applyDescriptorProp isTComp hash key valuePath)

/-- `createMessageDescriptor` from src/index.js. -/
def createMessageDescriptor (propPaths : List (KeyExpr × Expr)) (isTComp : Bool) :
    Except Err RawDescriptor :=
  createMessageDescriptorAux isTComp propPaths {}

/-- A fully resolved descriptor, the argument of `storeMessage`. -/
structure EvaluatedDescriptor where
  id : Option String := none
  description : Option String := none
  defaultMessage : Option String := none
  c : Option String := none
deriving DecidableEq, Repr

/-- Resolve one optional raw property. -/
def evalOptField (f : Expr → Except Err String) : Option Expr → Except Err (Option String)
  | none => .ok none
  | some e => (f e).map some

/-- `evaluateMessageDescriptor` from src/index.js: `defaultMessage` goes
through the ICU pipeline, every other present property through plain static
evaluation plus trim.  (The JS iterates the hash keys in insertion order; the
resolved values are order-independent, only which of several errors surfaces
first could differ, which no claim relies on.) -/
def evaluateMessageDescriptor (d : RawDescriptor) (isJSXSource : Bool) :
    Except Err EvaluatedDescriptor :=
  match evalOptField getMessageDescriptorValue d.id with
  | .error e => .error e
  | .ok idv =>
    match evalOptField getMessageDescriptorValue d.description with
    | .error e => .error e
    | .ok descv =>
      match evalOptField (fun p => getICUMessageValue p isJSXSource) d.defaultMessage with
      | .error e => .error e
      | .ok dmv =>
        match evalOptField getMessageDescriptorValue d.c with
        | .error e => .error e
        | .ok cv => .ok ⟨idv, descv, dmv, cv⟩

/-- Source location attached to a descriptor when `extractSourceLocation` is
set (the host supplies the file-relative path and the node's position). -/
structure Loc where
  file : String
  startLine : Nat
  startColumn : Nat
  endLine : Nat
  endColumn : Nat
deriving DecidableEq, Repr

/-- A stored catalog entry: note the `id` field holds the (possibly mangled)
storage key, exactly as `reactIntl.messages.set(id, {id, ...})` stores it. -/
structure StoredEntry where
  id : String
  description : Option String
  defaultMessage : String
  loc : Option Loc
deriving DecidableEq, Repr

/-- The per-unit extraction store: a JS `Map` with string keys, i.e. an
insertion-ordered association list. -/
def Store := List (String × StoredEntry)
deriving DecidableEq, Repr

/-- JS `Map.prototype.get` / `has`. -/
def getStore : Store → String → Option StoredEntry
  | [], _ => none
  | (k, v) :: rest, key => if k = key then some v else getStore rest key

/-- JS `Map.prototype.set`: replace in place when the key exists, else append
(insertion order is preserved). -/
def setStore : Store → String → StoredEntry → Store
  | [], key, v => [(key, v)]
  | (k, w) :: rest, key, v =>
    if k = key then (key, v) :: rest else (k, w) :: setStore rest key v

/-- Plugin configuration options. -/
structure Opts where
  moduleSourceName : Option String := none
  enforceDescriptions : Bool := false
  extractSourceLocation : Bool := false
  messagesDir : Option String := none
deriving DecidableEq, Repr

/-- `getModuleSourceName` from src/index.js (`opts.moduleSourceName ||
'react-intl'`, so the empty string also falls back). -/
def getModuleSourceName (opts : Opts) : String :=
  match opts.moduleSourceName with
  | some s => if s = "" then "react-intl" else s
  | none => "react-intl"

/-- The tail of `storeMessage` after the duplicate check: the description
enforcement check, the optional source location, the `##`-mangling of the key
when a comment is present, and the map insertion. -/
def storeMessageInsert (d : EvaluatedDescriptor) (opts : Opts) (here : Loc)
    (messages : Store) (i dm : String) : Option Err × Store :=
  if opts.enforceDescriptions && !(truthy d.description) then
    (some .missingDescription, messages)
  else
    let loc : Option Loc := if opts.extractSourceLocation then some here else none
    let key : String :=
      match d.c with
      | some c => if c ≠ "" then i ++ "##" ++ c else i
      | none => i
    (none, setStore messages key ⟨key, d.description, dm, loc⟩)

/-- `storeMessage` from src/index.js.  The result pairs the raised error (if
any) with the message map after the call; the JS mutates the map only in the
final `set`, after every check. -/
def storeMessage (d : EvaluatedDescriptor) (opts : Opts) (here : Loc)
    (messages : Store) : Option Err × Store :=
  match d.id, d.defaultMessage with
  | some i, some dm =>
    if i = "" ∨ dm = "" then (some .missingRequiredFields, messages)
    else
      match getStore messages i with
      | some existing =>
        if d.description ≠ existing.description ∨ dm ≠ existing.defaultMessage then
          (some .duplicateIdConflict, messages)
        else storeMessageInsert d opts here messages i dm
      | none => storeMessageInsert d opts here messages i dm
  | _, _ => (some .missingRequiredFields, messages)

/-- `referencesImport` from src/index.js: non-identifier tags never reference
an import; otherwise some name of the list must be referenced.  The
reference-resolution query itself is a host capability, carried by the node as
`refImport`. -/
def referencesImportNode (tagIsIdentifier : Bool) (refImport : String → String → Bool)
    (mod : String) (importedNames : List String) : Bool :=
  if !tagIsIdentifier then false
  else importedNames.any (fun nm => refImport mod nm)

/-- A JSX attribute as the element callback sees it: spread attributes have
`isJSXAttribute = false` and are filtered out. -/
structure JSXAttr where
  isJSXAttribute : Bool
  name : KeyExpr
  value : Expr
deriving DecidableEq, Repr

/-- A JSX opening element node: tag name, whether the tag path is a
(JSX)identifier, the host's import-reference oracle for the tag, the
attribute list, and the processed marker (`EXTRACTED_TAG`). -/
structure JSXNode where
  tagName : String
  tagIsIdentifier : Bool
  refImport : String → String → Bool
  attributes : List JSXAttr
  extracted : Bool

/-- The `attributes.some(...)` removal step: delete the first JSX attribute
whose key resolves to `description`; resolving a computed key may raise. -/
def removeDescriptionAttr : List JSXAttr → Except Err (List JSXAttr)
  | [] => .ok []
  | a :: rest =>
    if a.isJSXAttribute then
      match getMessageDescriptorKey a.name with
      | .error e => .error e
      | .ok key =>
        if key = "description" then .ok rest
        else (removeDescriptionAttr rest).map (fun l => a :: l)
    else (removeDescriptionAttr rest).map (fun l => a :: l)

/-- Outcome of the element callback: raised error (if any), the message map,
whether the FormattedPlural warning was logged, and the (possibly rewritten
and tagged) node. -/
structure JSXResult where
  err : Option Err
  messages : Store
  warned : Bool
  node : JSXNode

/-- The `JSXOpeningElement` visitor from src/index.js. -/
def jsxOpeningElement (node : JSXNode) (opts : Opts) (here : Loc)
    (messages : Store) : JSXResult :=
  let isTComp := node.tagName == COMPONENT_NAME
  if node.extracted then ⟨none, messages, false, node⟩
  else
    let moduleSourceName := getModuleSourceName opts
    if node.refImport moduleSourceName "FormattedPlural" then
      ⟨none, messages, true, node⟩
    else if referencesImportNode node.tagIsIdentifier node.refImport
              moduleSourceName COMPONENT_NAMES || isTComp then
      let attributes := node.attributes.filter (fun a => a.isJSXAttribute)
      match createMessageDescriptor
              (attributes.map (fun a => (a.name, a.value))) isTComp with
      | .error e => ⟨some e, messages, false, node⟩
      | .ok descriptor =>
        if descriptor.defaultMessage.isSome then
          match evaluateMessageDescriptor descriptor true with
          | .error e => ⟨some e, messages, false, node⟩
          | .ok evaluated =>
            match storeMessage evaluated opts here messages with
            | (some e, ms) => ⟨some e, ms, false, node⟩
            | (none, ms) =>
              match removeDescriptionAttr node.attributes with
              | .error e => ⟨some e, ms, false, node⟩
              | .ok attrs =>
                ⟨none, ms, false, { node with attributes := attrs, extracted := true }⟩
        else ⟨none, messages, false, node⟩
    else ⟨none, messages, false, node⟩

/-- A call expression node: the callee's name (when the callee is a named
identifier), the argument expressions, and the processed marker. -/
structure CallNode where
  calleeName : Option String
  args : List Expr
  extracted : Bool
deriving DecidableEq, Repr

/-- Outcome of the call callback. -/
structure CallResult where
  err : Option Err
  messages : Store
  node : CallNode
deriving DecidableEq, Repr

/-- Resolution of the optional third `t(...)` argument
(`cPath ? getMessageDescriptorValue(cPath) : undefined`). -/
def resolveComment : Option Expr → Except Err (Option String)
  | some cp => (getMessageDescriptorValue cp).map some
  | none => .ok none

/-- The `CallExpression` visitor from src/index.js.  A `t(...)` call with no
argument at all would crash the JS plugin on the undefined path, modelled as
`hostCrash`. -/
def callExpression (node : CallNode) (opts : Opts) (here : Loc)
    (messages : Store) : CallResult :=
  if node.extracted then ⟨none, messages, node⟩
  else if node.calleeName == some "t" then
    match node.args.head? with
    | none => ⟨some .hostCrash, messages, node⟩
    | some textPath =>
      match getICUMessageValue textPath false with
      | .error e => ⟨some e, messages, node⟩
      | .ok text =>
        match resolveComment (node.args.get? 2) with
        | .error e => ⟨some e, messages, node⟩
        | .ok c =>
          match storeMessage ⟨some text, none, some text, c⟩ opts here messages with
          | (some e, ms) => ⟨some e, ms, node⟩
          | (none, ms) => ⟨none, ms, { node with extracted := true }⟩
  else ⟨none, messages, node⟩

/-- JSON string escaping for the characters `JSON.stringify` escapes that can
occur in our model. -/
def jsonEscapeChar (ch : Char) : List Char :=
  if ch = '\\' then ['\\', '\\']
  else if ch = '"' then ['\\', '"']
  else if ch = '\n' then ['\\', 'n']
  else if ch = '\t' then ['\\', 't']
  else if ch = '\r' then ['\\', 'r']
  else [ch]

/-- A JSON string literal. -/
def jsonStr (s : String) : String :=
  "\"" ++ String.mk ((s.data.map jsonEscapeChar).flatten) ++ "\""

/-- The location fields contributed by `{file, ...path.node.loc}` when source
location extraction is on, rendered as `JSON.stringify` renders the nested
`start`/`end` objects at 2-space indentation. -/
def jsonLocLines (l : Loc) : List String :=
  ["\"file\": " ++ jsonStr l.file,
   "\"start\": \x7b\n      \"line\": " ++ toString l.startLine ++
     ",\n      \"column\": " ++ toString l.startColumn ++ "\n    \x7d",
   "\"end\": \x7b\n      \"line\": " ++ toString l.endLine ++
     ",\n      \"column\": " ++ toString l.endColumn ++ "\n    \x7d"]

/-- The fields of one serialized descriptor, in the key insertion order of
`{id, description, defaultMessage, ...loc}`; `JSON.stringify` omits
properties whose value is `undefined`. -/
def descriptorLines (e : StoredEntry) : List String :=
  ["\"id\": " ++ jsonStr e.id]
  ++ (match e.description with
      | some d => ["\"description\": " ++ jsonStr d]
      | none => [])
  ++ ["\"defaultMessage\": " ++ jsonStr e.defaultMessage]
  ++ (match e.loc with
      | some l => jsonLocLines l
      | none => [])

/-- `JSON.stringify(descriptors, null, 2)`. -/
def jsonStringifyDescriptors (ds : List StoredEntry) : String :=
  if ds.isEmpty then "[]"
  else
    "[\n" ++
    String.intercalate ",\n"
      (ds.map (fun e =>
        "  \x7b\n" ++
        String.intercalate ",\n" ((descriptorLines e).map (fun l => "    " ++ l)) ++
        "\n  \x7d")) ++
    "\n]"

/-- Join path components with the separator (`p.join`). -/
def joinPath (parts : List String) : String :=
  String.intercalate "/" parts

/-- The store's values in insertion order (`[...reactIntl.messages.values()]`). -/
def storeValues (m : Store) : List StoredEntry :=
  m.map (fun kv => kv.2)

/-- Outcome of `Program.exit`: the per-unit metadata record and the optional
file write (destination path and content). -/
structure ExitResult where
  metadata : List StoredEntry
  write : Option (String × String)
deriving DecidableEq, Repr

/-- The `Program.exit` visitor from src/index.js.  `relativePath` is the
unit's path relative to the working directory, as components (the host path
library is external); `p.dirname` drops its last component. -/
def programExit (opts : Opts) (relativePath : List String) (basename : String)
    (messages : Store) : ExitResult :=
  let descriptors := storeValues messages
  if truthy opts.messagesDir ∧ 0 < descriptors.length then
    let messagesFilename :=
      joinPath (opts.messagesDir.getD "" :: (relativePath.dropLast ++ [basename ++ ".json"]))
    ⟨descriptors, some (messagesFilename, jsonStringifyDescriptors descriptors)⟩
  else ⟨descriptors, none⟩

/-! ### Helper lemmas -/

lemma mangled_key_ne (i c : String) : i ++ "##" ++ c ≠ i := by
  intro h
  have h2 := congrArg String.length h
  have h3 : ("##" : String).length = 2 := rfl
  simp only [String.length_append] at h2
  omega

lemma storeMessageInsert_fst_none_or_snd_eq (d : EvaluatedDescriptor) (opts : Opts)
    (here : Loc) (messages : Store) (i dm : String) :
    (storeMessageInsert d opts here messages i dm).1 = none ∨
    (storeMessageInsert d opts here messages i dm).2 = messages := by
  unfold storeMessageInsert
  split
  · exact Or.inr rfl
  · exact Or.inl rfl

lemma storeMessage_fst_none_or_snd_eq (d : EvaluatedDescriptor) (opts : Opts)
    (here : Loc) (messages : Store) :
    (storeMessage d opts here messages).1 = none ∨
    (storeMessage d opts here messages).2 = messages := by
  obtain ⟨id, desc, dm, c⟩ := d
  unfold storeMessage
  cases id with
  | none => exact Or.inr rfl
  | some i =>
    cases dm with
    | none => exact Or.inr rfl
    | some m =>
      dsimp only
      split
      · exact Or.inr rfl
      · cases hg : getStore messages i with
        | some existing =>
          dsimp only
          split
          · exact Or.inr rfl
          · exact storeMessageInsert_fst_none_or_snd_eq ..
        | none =>
          exact storeMessageInsert_fst_none_or_snd_eq ..

lemma storeMessage_mangled_insert (d : EvaluatedDescriptor) (opts : Opts) (here : Loc)
    (messages : Store) (i dm c : String)
    (hid : d.id = some i) (hi : i ≠ "")
    (hdm : d.defaultMessage = some dm) (hm : dm ≠ "")
    (hc : d.c = some c) (hcne : c ≠ "")
    (hbare : getStore messages i = none)
    (hdesc : opts.enforceDescriptions = false) :
    storeMessage d opts here messages =
      (none, setStore messages (i ++ "##" ++ c)
        ⟨i ++ "##" ++ c, d.description, dm,
         if opts.extractSourceLocation then some here else none⟩) := by
  unfold storeMessage
  rw [hid, hdm]
  dsimp only
  rw [if_neg (by simp [hi, hm]), hbare]
  unfold storeMessageInsert
  rw [hdesc]
  simp only [Bool.false_and, Bool.false_eq_true, if_false, hc]
  rw [if_pos hcne]

/-! ### Claim theorems -/

/-- Claim C10 (confirmed): whenever `storeMessage` raises an error, the
per-unit message map is left unchanged — every mutation happens only after
all checks have passed, so a failed insert is atomic. -/
theorem c10_store_error_atomic (d : EvaluatedDescriptor) (opts : Opts) (here : Loc)
    (messages : Store) (e : Err)
    (h : (storeMessage d opts here messages).1 = some e) :
    (storeMessage d opts here messages).2 = messages := by
  rcases storeMessage_fst_none_or_snd_eq d opts here messages with h1 | h1
  · rw [h1] at h
    exact Option.noConfusion h
  · exact h1

/-- Witness for C10 at a concrete failing insert (missing `id`). -/
theorem c10_store_error_atomic_witness :
    (storeMessage ⟨none, none, some "A", none⟩ {} ⟨"f.js", 1, 0, 1, 9⟩
        [("k", ⟨"k", none, "v", none⟩)]).1 = some Err.missingRequiredFields ∧
    (storeMessage ⟨none, none, some "A", none⟩ {} ⟨"f.js", 1, 0, 1, 9⟩
        [("k", ⟨"k", none, "v", none⟩)]).2 = [("k", ⟨"k", none, "v", none⟩)] :=
  ⟨by decide,
   c10_store_error_atomic ⟨none, none, some "A", none⟩ {} ⟨"f.js", 1, 0, 1, 9⟩
     [("k", ⟨"k", none, "v", none⟩)] Err.missingRequiredFields (by decide)⟩

/-- Claim C8 (confirmed): for a node already marked processed, both callbacks
return immediately, leaving the store, the warning channel and the node
unchanged. -/
theorem c8_processed_marker_idempotent (node : JSXNode) (cnode : CallNode)
    (opts : Opts) (here : Loc) (messages : Store)
    (h1 : node.extracted = true) (h2 : cnode.extracted = true) :
    jsxOpeningElement node opts here messages = ⟨none, messages, false, node⟩ ∧
    callExpression cnode opts here messages = ⟨none, messages, cnode⟩ := by
  constructor
  · unfold jsxOpeningElement
    rw [h1]
    simp
  · unfold callExpression
    rw [h2]
    simp

/-- Witness for C8 at concrete already-tagged nodes. -/
theorem c8_processed_marker_idempotent_witness :
    (⟨"T", true, fun _ _ => false, [], true⟩ : JSXNode).extracted = true ∧
    jsxOpeningElement ⟨"T", true, fun _ _ => false, [], true⟩ {} ⟨"f.js", 1, 0, 1, 9⟩
        [("k", ⟨"k", none, "v", none⟩)]
      = ⟨none, [("k", ⟨"k", none, "v", none⟩)], false, ⟨"T", true, fun _ _ => false, [], true⟩⟩ ∧
    callExpression ⟨some "t", [Expr.strLit "x"], true⟩ {} ⟨"f.js", 1, 0, 1, 9⟩
        [("k", ⟨"k", none, "v", none⟩)]
      = ⟨none, [("k", ⟨"k", none, "v", none⟩)], ⟨some "t", [Expr.strLit "x"], true⟩⟩ :=
  ⟨rfl,
   (c8_processed_marker_idempotent ⟨"T", true, fun _ _ => false, [], true⟩
      ⟨some "t", [Expr.strLit "x"], true⟩ {} ⟨"f.js", 1, 0, 1, 9⟩
      [("k", ⟨"k", none, "v", none⟩)] rfl rfl).1,
   (c8_processed_marker_idempotent ⟨"T", true, fun _ _ => false, [], true⟩
      ⟨some "t", [Expr.strLit "x"], true⟩ {} ⟨"f.js", 1, 0, 1, 9⟩
      [("k", ⟨"k", none, "v", none⟩)] rfl rfl).2⟩

/-- Claim C9 (confirmed): when a JSX-source attribute value is a plain string
literal whose resolved message contains a double backslash and fails ICU
parsing, the raised error is the specialized escaping diagnostic, not the
generic parse error. -/
theorem c9_escape_diagnostic (e : Expr) (msg : String)
    (hval : getMessageDescriptorValue e = .ok msg)
    (hlit : e.isLiteral = true)
    (hfail : printICUMessage msg = none)
    (hbs : hasDoubleBackslash msg.data = true) :
    getICUMessageValue e true = .error Err.escapeHint := by
  unfold getICUMessageValue
  rw [hval]
  dsimp only
  rw [hfail]
  dsimp only
  rw [hlit, hbs]
  simp

/-- Witness for C9 at the literal `\\{`. -/
theorem c9_escape_diagnostic_witness :
    printICUMessage (jsTrim "\\\\\x7b") = none ∧
    getICUMessageValue (Expr.strLit "\\\\\x7b") true = .error Err.escapeHint :=
  ⟨by decide,
   c9_escape_diagnostic (Expr.strLit "\\\\\x7b") (jsTrim "\\\\\x7b")
     (by decide) (by decide) (by decide) (by decide)⟩

/-- Claim C6 (confirmed): a stored descriptor carrying a (truthy) comment `c`
is stored under key `id ++ "##" ++ c`, that key differs from the bare id, and
the mangled key is what is persisted as the entry's `id` field. -/
theorem c6_comment_mangles_key (d : EvaluatedDescriptor) (opts : Opts) (here : Loc)
    (messages : Store) (i dm c : String)
    (hid : d.id = some i) (hi : i ≠ "")
    (hdm : d.defaultMessage = some dm) (hm : dm ≠ "")
    (hc : d.c = some c) (hcne : c ≠ "")
    (hbare : getStore messages i = none)
    (hdesc : opts.enforceDescriptions = false) :
    storeMessage d opts here messages =
      (none, setStore messages (i ++ "##" ++ c)
        ⟨i ++ "##" ++ c, d.description, dm,
         if opts.extractSourceLocation then some here else none⟩) ∧
    i ++ "##" ++ c ≠ i :=
  ⟨storeMessage_mangled_insert d opts here messages i dm c hid hi hdm hm hc hcne hbare hdesc,
   mangled_key_ne i c⟩

/-- Witness for C6 at a concrete commented descriptor. -/
theorem c6_comment_mangles_key_witness :
    ("X" : String) ≠ "" ∧
    storeMessage ⟨some "X", none, some "A", some "foo"⟩ {} ⟨"f.js", 1, 0, 1, 9⟩ [] =
      (none, setStore [] ("X" ++ "##" ++ "foo")
        ⟨"X" ++ "##" ++ "foo", none, "A",
         if ({} : Opts).extractSourceLocation then some ⟨"f.js", 1, 0, 1, 9⟩ else none⟩) ∧
    "X" ++ "##" ++ "foo" ≠ "X" :=
  ⟨by decide,
   (c6_comment_mangles_key ⟨some "X", none, some "A", some "foo"⟩ {} ⟨"f.js", 1, 0, 1, 9⟩ []
      "X" "A" "foo" rfl (by decide) rfl (by decide) rfl (by decide) rfl rfl).1,
   (c6_comment_mangles_key ⟨some "X", none, some "A", some "foo"⟩ {} ⟨"f.js", 1, 0, 1, 9⟩ []
      "X" "A" "foo" rfl (by decide) rfl (by decide) rfl (by decide) rfl rfl).2⟩

/-- Claim C1 (counterexample): two insertions with the same id `"X"` and the
same comment `"foo"` but differing `defaultMessage` raise no error at all —
the second silently overwrites the first under the mangled key. -/
theorem c1_same_comment_conflict_missed_cex :
    (storeMessage ⟨some "X", none, some "B", some "foo"⟩ {} ⟨"f.js", 1, 0, 1, 9⟩
        (storeMessage ⟨some "X", none, some "A", some "foo"⟩ {} ⟨"f.js", 1, 0, 1, 9⟩ []).2).1
      = none ∧
    (storeMessage ⟨some "X", none, some "B", some "foo"⟩ {} ⟨"f.js", 1, 0, 1, 9⟩
        (storeMessage ⟨some "X", none, some "A", some "foo"⟩ {} ⟨"f.js", 1, 0, 1, 9⟩ []).2).2
      = [("X##foo", ⟨"X##foo", none, "B", none⟩)] :=
  ⟨by decide, by decide⟩

/-- Claim C1 (amended): the effective storage key is `id ++ "##" ++ comment`,
but the duplicate-conflict check looks up the bare id only; an insertion whose
mangled key already exists (with arbitrary stored content) raises no conflict
and overwrites that entry. -/
theorem c1_conflict_check_uses_bare_id (d : EvaluatedDescriptor) (opts : Opts)
    (here : Loc) (messages : Store) (i dm c : String) (ex : StoredEntry)
    (hid : d.id = some i) (hi : i ≠ "")
    (hdm : d.defaultMessage = some dm) (hm : dm ≠ "")
    (hc : d.c = some c) (hcne : c ≠ "")
    (hbare : getStore messages i = none)
    (_hmangled : getStore messages (i ++ "##" ++ c) = some ex)
    (hdesc : opts.enforceDescriptions = false) :
    storeMessage d opts here messages =
      (none, setStore messages (i ++ "##" ++ c)
        ⟨i ++ "##" ++ c, d.description, dm,
         if opts.extractSourceLocation then some here else none⟩) :=
  storeMessage_mangled_insert d opts here messages i dm c hid hi hdm hm hc hcne hbare hdesc

/-- Witness for the amended C1: the mangled key `"X##foo"` is already present
with `defaultMessage "A"`, yet the insert of `defaultMessage "B"` succeeds. -/
theorem c1_conflict_check_uses_bare_id_witness :
    getStore [("X##foo", ⟨"X##foo", none, "A", none⟩)] "X" = none ∧
    getStore [("X##foo", ⟨"X##foo", none, "A", none⟩)] ("X" ++ "##" ++ "foo")
      = some ⟨"X##foo", none, "A", none⟩ ∧
    storeMessage ⟨some "X", none, some "B", some "foo"⟩ {} ⟨"f.js", 1, 0, 1, 9⟩
        [("X##foo", ⟨"X##foo", none, "A", none⟩)] =
      (none, setStore [("X##foo", ⟨"X##foo", none, "A", none⟩)] ("X" ++ "##" ++ "foo")
        ⟨"X" ++ "##" ++ "foo", none, "B",
         if ({} : Opts).extractSourceLocation then some ⟨"f.js", 1, 0, 1, 9⟩ else none⟩) :=
  ⟨by decide, by decide,
   c1_conflict_check_uses_bare_id ⟨some "X", none, some "B", some "foo"⟩ {}
     ⟨"f.js", 1, 0, 1, 9⟩ [("X##foo", ⟨"X##foo", none, "A", none⟩)]
     "X" "B" "foo" ⟨"X##foo", none, "A", none⟩
     rfl (by decide) rfl (by decide) rfl (by decide) (by decide) (by decide) rfl⟩

/-- Claim C3 (counterexample): a descriptor that both lacks a required
description (`enforceDescriptions` on) and conflicts with an existing entry
raises the duplicate-conflict error, not the missing-description error. -/
theorem c3_conflict_raised_first_cex :
    storeMessage ⟨some "X", none, some "B", none⟩ {enforceDescriptions := true}
        ⟨"f.js", 1, 0, 1, 9⟩ [("X", ⟨"X", some "d", "A", none⟩)]
      = (some Err.duplicateIdConflict, [("X", ⟨"X", some "d", "A", none⟩)]) ∧
    Err.duplicateIdConflict ≠ Err.missingDescription :=
  ⟨by decide, by decide⟩

/-- Claim C3 (amended): the insert checks apply as required-fields first, then
the duplicate-key conflict, then the missing-description check — so whenever a
conflicting entry exists, the conflict error is raised for every
configuration, description present or not. -/
theorem c3_conflict_before_description (d : EvaluatedDescriptor) (opts : Opts)
    (here : Loc) (messages : Store) (i dm : String) (ex : StoredEntry)
    (hid : d.id = some i) (hi : i ≠ "")
    (hdm : d.defaultMessage = some dm) (hm : dm ≠ "")
    (hex : getStore messages i = some ex)
    (hdiff : d.description ≠ ex.description ∨ dm ≠ ex.defaultMessage) :
    storeMessage d opts here messages = (some Err.duplicateIdConflict, messages) := by
  unfold storeMessage
  rw [hid, hdm]
  dsimp only
  rw [if_neg (by simp [hi, hm]), hex]
  dsimp only
  rw [if_pos hdiff]

/-- Witness for the amended C3: conflict raised although `enforceDescriptions`
is set and the description is absent. -/
theorem c3_conflict_before_description_witness :
    getStore [("X", ⟨"X", some "d", "A", none⟩)] "X" = some ⟨"X", some "d", "A", none⟩ ∧
    storeMessage ⟨some "X", none, some "B", none⟩ {enforceDescriptions := true}
        ⟨"f.js", 1, 0, 1, 9⟩ [("X", ⟨"X", some "d", "A", none⟩)]
      = (some Err.duplicateIdConflict, [("X", ⟨"X", some "d", "A", none⟩)]) :=
  ⟨by decide,
   c3_conflict_before_description ⟨some "X", none, some "B", none⟩
     {enforceDescriptions := true} ⟨"f.js", 1, 0, 1, 9⟩
     [("X", ⟨"X", some "d", "A", none⟩)] "X" "B" ⟨"X", some "d", "A", none⟩
     rfl (by decide) rfl (by decide) (by decide) (by decide)⟩

/-- A sample element whose tag is an identifier that (per its oracle)
references every non-plural import of the module, carrying a statically given
`defaultMessage` attribute. -/
def formattedMessageNode : JSXNode :=
  ⟨"FormattedMessage", true, fun _ nm => nm != "FormattedPlural",
   [⟨true, .ident "id", .strLit "greeting"⟩,
    ⟨true, .ident "defaultMessage", .strLit "Hi"⟩], false⟩

/-- Claim C2 (counterexample): the recognized component-name set is empty, so
even an element whose tag references every import of `"react-intl"` and that
carries a static `defaultMessage` stores nothing, is not tagged, and raises
nothing — case (a) is not a live extraction case. -/
theorem c2_component_extraction_disabled_cex :
    COMPONENT_NAMES = [] ∧
    formattedMessageNode.refImport "react-intl" "FormattedMessage" = true ∧
    (jsxOpeningElement formattedMessageNode {} ⟨"f.js", 1, 0, 1, 9⟩ []).messages = [] ∧
    (jsxOpeningElement formattedMessageNode {} ⟨"f.js", 1, 0, 1, 9⟩ []).node.extracted = false ∧
    (jsxOpeningElement formattedMessageNode {} ⟨"f.js", 1, 0, 1, 9⟩ []).err = none :=
  ⟨rfl, rfl, rfl, rfl, rfl⟩

/-- Claim C2 (amended): `COMPONENT_NAMES` is empty (the react-intl components
are deliberately disabled), so `referencesImport` over it is identically false
and an element is extracted only via the `T` shorthand: a non-`T`, non-plural
element leaves everything unchanged. -/
theorem c2_only_t_shorthand_live (node : JSXNode) (opts : Opts) (here : Loc)
    (messages : Store) (m : String)
    (h1 : node.tagName ≠ "T")
    (h2 : node.refImport (getModuleSourceName opts) "FormattedPlural" = false)
    (h3 : node.extracted = false) :
    referencesImportNode node.tagIsIdentifier node.refImport m COMPONENT_NAMES = false ∧
    jsxOpeningElement node opts here messages = ⟨none, messages, false, node⟩ := by
  have hri : ∀ m', referencesImportNode node.tagIsIdentifier node.refImport m'
      COMPONENT_NAMES = false := by
    intro m'
    unfold referencesImportNode COMPONENT_NAMES
    cases node.tagIsIdentifier <;> simp
  refine ⟨hri m, ?_⟩
  unfold jsxOpeningElement
  rw [h3]
  dsimp only
  rw [h2]
  simp [hri, COMPONENT_NAME, h1]

/-- Witness for the amended C2 at the sample non-`T` element. -/
theorem c2_only_t_shorthand_live_witness :
    formattedMessageNode.tagName ≠ "T" ∧
    jsxOpeningElement formattedMessageNode {} ⟨"f.js", 1, 0, 1, 9⟩ [] =
      ⟨none, [], false, formattedMessageNode⟩ :=
  ⟨by decide,
   (c2_only_t_shorthand_live formattedMessageNode {} ⟨"f.js", 1, 0, 1, 9⟩ [] "react-intl"
      (by decide) rfl rfl).2⟩

lemma applyDescriptorProp_T_inv (hash : RawDescriptor) (key : String) (v : Expr)
    (h : hash.id = hash.defaultMessage) :
    (applyDescriptorProp true hash key v).id =
      (applyDescriptorProp true hash key v).defaultMessage := by
  unfold applyDescriptorProp
  split_ifs <;> simp_all

lemma createMessageDescriptorAux_T_inv :
    ∀ (props : List (KeyExpr × Expr)) (hash r : RawDescriptor),
    hash.id = hash.defaultMessage →
    createMessageDescriptorAux true props hash = .ok r →
    r.id = r.defaultMessage := by
  intro props
  induction props with
  | nil =>
    intro hash r h hr
    unfold createMessageDescriptorAux at hr
    cases hr
    exact h
  | cons p rest ih =>
    intro hash r h hr
    obtain ⟨kp, vp⟩ := p
    unfold createMessageDescriptorAux at hr
    cases hk : getMessageDescriptorKey kp with
    | error e => rw [hk] at hr; cases hr
    | ok key =>
      rw [hk] at hr
      exact ih _ _ (applyDescriptorProp_T_inv hash key vp h) hr

/-- Claim C4 (counterexample): a `T` element whose message text is
`"{ name }"` stores an entry whose `id` is the trimmed raw text but whose
`defaultMessage` is the canonical re-serialization `"{name}"` — the two
differ, so the stored id and defaultMessage are not always equal. -/
theorem c4_id_dm_not_always_equal_cex :
    (jsxOpeningElement
        ⟨"T", true, fun _ _ => false, [⟨true, .ident "s", .strLit "\x7b name \x7d"⟩], false⟩
        {} ⟨"f.js", 1, 0, 1, 9⟩ []).messages
      = [("\x7b name \x7d", ⟨"\x7b name \x7d", none, "\x7bname\x7d", none⟩)] ∧
    ("\x7b name \x7d" : String) ≠ "\x7bname\x7d" :=
  ⟨by decide, by decide⟩

/-- Claim C4 (amended): for a descriptor built from a `T` element (both `id`
and `defaultMessage` reference the same message value), the resolved
`defaultMessage` is exactly the canonical re-serialization of the resolved
`id`; the two coincide precisely when the trimmed text is already
canonical. -/
theorem c4_dm_is_canonical_of_id (props : List (KeyExpr × Expr)) (raw : RawDescriptor)
    (ev : EvaluatedDescriptor) (i m : String)
    (h0 : createMessageDescriptor props true = .ok raw)
    (h1 : evaluateMessageDescriptor raw true = .ok ev)
    (h2 : ev.id = some i) (h3 : ev.defaultMessage = some m) :
    printICUMessage i = some m := by
  have hinv : raw.id = raw.defaultMessage :=
    createMessageDescriptorAux_T_inv props {} raw rfl h0
  unfold evaluateMessageDescriptor at h1
  cases hidv : evalOptField getMessageDescriptorValue raw.id with
  | error e => rw [hidv] at h1; cases h1
  | ok idv =>
    rw [hidv] at h1
    dsimp only at h1
    cases hdescv : evalOptField getMessageDescriptorValue raw.description with
    | error e => rw [hdescv] at h1; cases h1
    | ok descv =>
      rw [hdescv] at h1
      dsimp only at h1
      cases hdmv : evalOptField (fun p => getICUMessageValue p true) raw.defaultMessage with
      | error e => rw [hdmv] at h1; cases h1
      | ok dmv =>
        rw [hdmv] at h1
        dsimp only at h1
        cases hcv : evalOptField getMessageDescriptorValue raw.c with
        | error e => rw [hcv] at h1; cases h1
        | ok cv =>
          rw [hcv] at h1
          dsimp only at h1
          cases h1
          dsimp only at h2 h3
          cases hv : raw.id with
          | none =>
            rw [hv] at hidv
            unfold evalOptField at hidv
            cases hidv
            cases h2
          | some v =>
            rw [hv] at hidv
            rw [hv] at hinv
            rw [← hinv] at hdmv
            unfold evalOptField at hidv hdmv
            dsimp only at hidv hdmv
            cases hgv : getMessageDescriptorValue v with
            | error e =>
              rw [hgv] at hidv
              dsimp only [Except.map] at hidv
              cases hidv
            | ok s =>
              rw [hgv] at hidv
              dsimp only [Except.map] at hidv
              injection hidv with h4
              subst h4
              injection h2 with h5
              cases hicu : getICUMessageValue v true with
              | error e =>
                rw [hicu] at hdmv
                dsimp only [Except.map] at hdmv
                cases hdmv
              | ok mm =>
                rw [hicu] at hdmv
                dsimp only [Except.map] at hdmv
                injection hdmv with h6
                subst h6
                injection h3 with h7
                rw [← h5, ← h7]
                unfold getICUMessageValue at hicu
                rw [hgv] at hicu
                dsimp only at hicu
                cases hp : printICUMessage s with
                | some canonical =>
                  rw [hp] at hicu
                  injection hicu with h8
                  rw [h8]
                | none =>
                  rw [hp] at hicu
                  dsimp only at hicu
                  split at hicu <;> cases hicu

/-- Witness for the amended C4 at a `T` element with an already-canonical
message: the stored defaultMessage is the canonicalization of the stored
id. -/
theorem c4_dm_is_canonical_of_id_witness :
    createMessageDescriptor [(KeyExpr.ident "s", Expr.strLit "Hello")] true
      = .ok ⟨some (Expr.strLit "Hello"), none, some (Expr.strLit "Hello"), none⟩ ∧
    printICUMessage "Hello" = some "Hello" :=
  ⟨by decide,
   c4_dm_is_canonical_of_id [(KeyExpr.ident "s", Expr.strLit "Hello")]
     ⟨some (Expr.strLit "Hello"), none, some (Expr.strLit "Hello"), none⟩
     ⟨some "Hello", none, some "Hello", none⟩ "Hello" "Hello"
     (by decide) (by decide) rfl rfl⟩

/-- Claim C5 (confirmed): an unprocessed call to the bare identifier `t` with
a first argument resolving to a valid message text stores a descriptor with
`id = defaultMessage = text` (the third argument, when present, resolved as
the comment), ignores the second positional argument entirely, and marks the
node processed. -/
theorem c5_t_call_extraction (node : CallNode) (opts : Opts) (here : Loc)
    (messages : Store) (a0 a1 a1' : Expr) (rest : List Expr) (text : String)
    (c : Option String) (ms : Store)
    (hx : node.extracted = false)
    (hn : node.calleeName = some "t")
    (ha : node.args = a0 :: a1 :: rest)
    (ht : getICUMessageValue a0 false = .ok text)
    (hcm : resolveComment rest.head? = .ok c)
    (hs : storeMessage ⟨some text, none, some text, c⟩ opts here messages = (none, ms)) :
    callExpression node opts here messages = ⟨none, ms, { node with extracted := true }⟩ ∧
    callExpression { node with args := a0 :: a1' :: rest } opts here messages =
      ⟨none, ms, { node with args := a0 :: a1' :: rest, extracted := true }⟩ := by
  have hg : ∀ b0 b1 : Expr, (b0 :: b1 :: rest).get? 2 = rest.head? := by
    intro b0 b1
    cases rest <;> rfl
  constructor
  · unfold callExpression
    rw [ha]
    simp only [hx, hn, beq_self_eq_true, if_true, Bool.false_eq_true, if_false,
      List.head?_cons, hg, ht, hcm, hs]
  · unfold callExpression
    simp only [hx, hn, beq_self_eq_true, if_true, Bool.false_eq_true, if_false,
      List.head?_cons, hg, ht, hcm, hs]

/-- Witness for C5 at `t("Welcome", <dynamic>, "ctx")`. -/
theorem c5_t_call_extraction_witness :
    getICUMessageValue (Expr.strLit "Welcome") false = .ok "Welcome" ∧
    callExpression ⟨some "t", [Expr.strLit "Welcome", Expr.dynamic, Expr.strLit "ctx"], false⟩
        {} ⟨"f.js", 1, 0, 1, 9⟩ [] =
      ⟨none, [("Welcome##ctx", ⟨"Welcome##ctx", none, "Welcome", none⟩)],
       ⟨some "t", [Expr.strLit "Welcome", Expr.dynamic, Expr.strLit "ctx"], true⟩⟩ :=
  ⟨by decide,
   (c5_t_call_extraction
      ⟨some "t", [Expr.strLit "Welcome", Expr.dynamic, Expr.strLit "ctx"], false⟩
      {} ⟨"f.js", 1, 0, 1, 9⟩ [] (Expr.strLit "Welcome") Expr.dynamic Expr.dynamic
      [Expr.strLit "ctx"] "Welcome" (some "ctx")
      [("Welcome##ctx", ⟨"Welcome##ctx", none, "Welcome", none⟩)]
      rfl rfl rfl (by decide) (by decide) (by decide)).1⟩

lemma storeValues_setStore_of_fresh (messages : Store) (k : String) (v : StoredEntry)
    (h : getStore messages k = none) :
    storeValues (setStore messages k v) = storeValues messages ++ [v] := by
  induction messages with
  | nil => rfl
  | cons p rest ih =>
    obtain ⟨k', w⟩ := p
    unfold getStore at h
    by_cases hk : k' = k
    · rw [if_pos hk] at h
      cases h
    · rw [if_neg hk] at h
      unfold setStore
      rw [if_neg hk]
      simp only [storeValues, List.map_cons, List.cons_append] at ih ⊢
      rw [ih h]

/-- Claim C7 (confirmed): at end of unit with `messagesDir` configured, no
file is written when the unit yields no descriptor; with at least one, the
file goes to `<messagesDir>/<dirname-of-relative-path>/<basename>.json` and
holds the 2-space-indented serialization of the descriptor list, which is the
store's values in insertion order (a fresh key appends at the end). -/
theorem c7_catalog_emitter (opts : Opts) (relativePath : List String)
    (basename : String) (messages : Store) (dir : String)
    (hdir : opts.messagesDir = some dir) (hne : dir ≠ "") :
    (storeValues messages = [] →
       (programExit opts relativePath basename messages).write = none) ∧
    (storeValues messages ≠ [] →
       (programExit opts relativePath basename messages).write =
         some (joinPath (dir :: (relativePath.dropLast ++ [basename ++ ".json"])),
               jsonStringifyDescriptors (storeValues messages))) ∧
    (programExit opts relativePath basename messages).metadata = storeValues messages ∧
    (∀ k v, getStore messages k = none →
       storeValues (setStore messages k v) = storeValues messages ++ [v]) := by
  have htr : truthy opts.messagesDir = true := by
    rw [hdir]
    simp [truthy, hne]
  refine ⟨?_, ?_, ?_, fun k v h => storeValues_setStore_of_fresh messages k v h⟩
  · intro hempty
    unfold programExit
    dsimp only
    rw [hempty]
    simp
  · intro hsome
    unfold programExit
    dsimp only
    rw [if_pos ⟨htr, List.length_pos.mpr hsome⟩, hdir]
    rfl
  · unfold programExit
    dsimp only
    split <;> rfl

/-- Witness for C7 at a one-descriptor unit with `messagesDir = "out"`. -/
theorem c7_catalog_emitter_witness :
    storeValues [("Welcome", ⟨"Welcome", none, "Welcome", none⟩)] ≠ [] ∧
    ((storeValues ([("Welcome", (⟨"Welcome", none, "Welcome", none⟩ : StoredEntry))] : Store) = [] →
        (programExit {messagesDir := some "out"} ["src", "app.js"] "app.js"
          [("Welcome", ⟨"Welcome", none, "Welcome", none⟩)]).write = none) ∧
     (storeValues ([("Welcome", (⟨"Welcome", none, "Welcome", none⟩ : StoredEntry))] : Store) ≠ [] →
        (programExit {messagesDir := some "out"} ["src", "app.js"] "app.js"
          [("Welcome", ⟨"Welcome", none, "Welcome", none⟩)]).write =
          some (joinPath ("out" :: (["src", "app.js"].dropLast ++ ["app.js" ++ ".json"])),
                jsonStringifyDescriptors
                  (storeValues [("Welcome", ⟨"Welcome", none, "Welcome", none⟩)]))) ∧
     (programExit {messagesDir := some "out"} ["src", "app.js"] "app.js"
        [("Welcome", ⟨"Welcome", none, "Welcome", none⟩)]).metadata =
       storeValues [("Welcome", ⟨"Welcome", none, "Welcome", none⟩)] ∧
     (∀ k v, getStore [("Welcome", ⟨"Welcome", none, "Welcome", none⟩)] k = none →
        storeValues (setStore [("Welcome", ⟨"Welcome", none, "Welcome", none⟩)] k v) =
          storeValues [("Welcome", ⟨"Welcome", none, "Welcome", none⟩)] ++ [v])) :=
  ⟨by decide,
   c7_catalog_emitter {messagesDir := some "out"} ["src", "app.js"] "app.js"
     [("Welcome", ⟨"Welcome", none, "Welcome", none⟩)] "out" rfl (by decide)⟩

end ReactIntlExtract
